import Mathlib

/-!
Verification of the schema-to-type-declaration generator of the baasix CLI
(src/commands/generate.ts).  The generator consumes a sequence of schema
descriptors fetched from a server and produces TypeScript type declarations.
We embed the pure core (`fieldTypeToTS`, `toPascalCase`,
`generateTypeScriptTypes`, `generateSDKTypes`) shallowly: the wall-clock
timestamp that the source reads with `new Date().toISOString()` becomes an
explicit string parameter, JavaScript truthiness on optional string fields
becomes an explicit predicate on `Option String`, and the `lines.join("\n")`
call becomes `joinLines`.
-/

namespace Baasix

/-- JavaScript truthiness of an optional string: defined and nonempty. -/
def truthyOpt (o : Option String) : Bool :=
  match o with
  | some s => s != ""
  | none => false

/-- JavaScript truthiness of an optional number: defined and nonzero. -/
def truthyInt (o : Option Int) : Bool :=
  match o with
  | some n => n != 0
  | none => false

/-- The `validate` object of a field definition.  The source reads the keys
`min`, `max`, `len`, `isEmail`, `isUrl`, `isIP`, `isUUID` and `regex`. -/
structure Validate where
  min : Option Int := none
  max : Option Int := none
  len : Option (Int × Int) := none
  isEmail : Bool := false
  isUrl : Bool := false
  isIP : Bool := false
  isUUID : Bool := false
  regex : Option String := none
deriving DecidableEq

/-- The `values` slot of a field definition: absent, a plain array (used by
ENUM fields), or an object from which the source reads `length`, `precision`,
`scale`, `type` and `values`. -/
inductive FieldValues where
  | undef : FieldValues
  | arr : List String → FieldValues
  | obj : Option Int → Option Int → Option Int → Option String →
      Option (List String) → FieldValues
deriving DecidableEq

/-- `FieldDefinition` from src/utils/api-client.ts, with the two relation keys
(`relType`, `target`) that generate.ts reads. -/
structure FieldDefinition where
  type : Option String := none
  primaryKey : Bool := false
  allowNull : Option Bool := none
  values : FieldValues := FieldValues.undef
  validate : Option Validate := none
  relType : Option String := none
  target : Option String := none
deriving DecidableEq

/-- The `schema` object of a `SchemaInfo`: display name, the `timestamps` and
`paranoid` flags and the ordered field map (`Object.entries` order). -/
structure SchemaBody where
  name : String := ""
  timestamps : Bool := false
  paranoid : Bool := false
  fields : List (String × FieldDefinition) := []
deriving DecidableEq

/-- `SchemaInfo` from src/utils/api-client.ts. -/
structure SchemaInfo where
  collectionName : String
  schema : SchemaBody
deriving DecidableEq

/-- JavaScript `String.prototype.split(/[-_]/)` on the character list:
separators are dropped, empty pieces are kept, the empty string yields one
empty piece. -/
def splitDelim : List Char → List (List Char)
  | [] => [[]]
  | c :: rest =>
    if c = '-' ∨ c = '_' then
      [] :: splitDelim rest
    else
      match splitDelim rest with
      | [] => [[c]]
      | w :: ws => (c :: w) :: ws

/-- `word.charAt(0).toUpperCase() + word.slice(1).toLowerCase()` on the
character list. -/
def jsCapitalize : List Char → List Char
  | [] => []
  | c :: rest => Char.toUpper c :: rest.map Char.toLower

/-- `toPascalCase` from generate.ts: split the name on dash/underscore,
capitalize each piece, lowercase the rest of each piece, concatenate. -/
def toPascalCase (str : String) : String :=
  String.join ((splitDelim str.data).map (fun w => String.mk (jsCapitalize w)))

/-- JavaScript `String.prototype.toUpperCase()` (ASCII range). -/
def jsToUpper (s : String) : String :=
  String.mk (s.data.map Char.toUpper)

/-- JavaScript `String.prototype.startsWith` on the character lists. -/
def strStartsWith (s p : String) : Bool :=
  p.data.isPrefixOf s.data

/-- `Array.prototype.join(sep)`. -/
def jsJoin (sep : String) : List String → String
  | [] => ""
  | [l] => l
  | l1 :: l2 :: ls => l1 ++ sep ++ jsJoin sep (l2 :: ls)

/-- `lines.join("\n")`, the final step of both generator entry points. -/
def joinLines (ls : List String) : String :=
  jsJoin ("\n") ls

/-- `field.allowNull !== false`: nullable unless nullability is explicitly
disallowed. -/
def fieldNullable (f : FieldDefinition) : Bool :=
  if f.allowNull = some false then false else true

/-- The `| null` suffix appended to scalar types of nullable fields. -/
def nullSuffix (f : FieldDefinition) : String :=
  if fieldNullable f then (" | null") else ("")

/-- A field takes the relation branch of `fieldTypeToTS` exactly when both
`relType` and `target` are truthy. -/
def isRelationField (f : FieldDefinition) : Bool :=
  truthyOpt f.relType && truthyOpt f.target

/-- Result record of `fieldTypeToTS`: the emitted type text and the optional
JSDoc annotation text. -/
structure TSField where
  type : String
  jsdoc : Option String := none
deriving DecidableEq

/-- Relation branch of `fieldTypeToTS`: HasMany/BelongsToMany render as an
array of the target type, BelongsTo/HasOne as the bare target type; both carry
`| null` unconditionally. -/
def relationTS (f : FieldDefinition) : TSField :=
  let targetType := toPascalCase (f.target.getD (""))
  if f.relType = some ("HasMany") ∨ f.relType = some ("BelongsToMany") then
    { type := targetType ++ "[] | null" }
  else
    { type := targetType ++ " | null" }

/-- The JSDoc parts collected for a scalar field, in the push order of the
source: `@min`, `@max`, `@length`, the four `@format` tags, `@pattern`, then
from the `values` object `@maxLength` and `@precision`. -/
def jsdocParts (f : FieldDefinition) : List String :=
  (match f.validate with
   | none => []
   | some v =>
     (match v.min with
      | some m => ["@min " ++ toString m]
      | none => []) ++
     (match v.max with
      | some m => ["@max " ++ toString m]
      | none => []) ++
     (match v.len with
      | some p => ["@length " ++ toString p.1 ++ "-" ++ toString p.2]
      | none => []) ++
     (if v.isEmail then [("@format email")] else []) ++
     (if v.isUrl then [("@format url")] else []) ++
     (if v.isIP then [("@format ip")] else []) ++
     (if v.isUUID then [("@format uuid")] else []) ++
     (match v.regex with
      | some r => if r != "" then ["@pattern " ++ r] else []
      | none => [])) ++
  (match f.values with
   | FieldValues.obj len prec scale _ _ =>
     (if truthyInt len then ["@maxLength " ++ toString (len.getD 0)] else []) ++
     (if truthyInt prec && truthyInt scale then
        ["@precision " ++ toString (prec.getD 0) ++ "," ++ toString (scale.getD 0)]
      else [])
   | _ => [])

/-- `ARRAY` branch of the scalar switch: inner element type from
`values.type`, defaulting to `unknown`. -/
def arrayInnerTS (v : FieldValues) : String :=
  let arrayType :=
    match v with
    | FieldValues.obj _ _ _ (some t) _ => if t != "" then t else ("unknown")
    | _ => "unknown"
  if jsToUpper arrayType = "STRING" then ("string")
  else if jsToUpper arrayType = "INTEGER" then ("number")
  else if jsToUpper arrayType = "BOOLEAN" then ("boolean")
  else ("unknown")

/-- `ENUM` branch of the scalar switch: the allowed values come either from a
plain array in `values` or from `values.values`; a nonempty list renders as a
parenthesized union of string literals, otherwise `string`. -/
def enumTS (v : FieldValues) (ns : String) : String :=
  let enumValues : Option (List String) :=
    match v with
    | FieldValues.arr vs => some vs
    | FieldValues.obj _ _ _ _ (some vs) => some vs
    | _ => none
  match enumValues with
  | some vs =>
    if vs.length > 0 then
      "(" ++ jsJoin (" | ") (vs.map (fun s => "\"" ++ s ++ "\"")) ++ ")" ++ ns
    else ("string") ++ ns
  | none => "string" ++ ns

/-- The scalar switch of `fieldTypeToTS`, on the uppercased `field.type`. -/
def scalarTypeTS (f : FieldDefinition) : String :=
  let u := f.type.map jsToUpper
  let ns := nullSuffix f
  if u = some ("STRING") ∨ u = some ("TEXT") ∨ u = some ("UUID") ∨ u = some ("SUID") then
    "string" ++ ns
  else if u = some ("INTEGER") ∨ u = some ("BIGINT") ∨ u = some ("FLOAT") ∨
      u = some ("REAL") ∨ u = some ("DOUBLE") ∨ u = some ("DECIMAL") then
    "number" ++ ns
  else if u = some ("BOOLEAN") then
    "boolean" ++ ns
  else if u = some ("DATE") ∨ u = some ("DATETIME") ∨ u = some ("TIME") then
    "string" ++ ns
  else if u = some ("JSON") ∨ u = some ("JSONB") then
    "Record<string, unknown>" ++ ns
  else if u = some ("ARRAY") then
    arrayInnerTS f.values ++ "[]" ++ ns
  else if u = some ("ENUM") then
    enumTS f.values ns
  else if u = some ("GEOMETRY") ∨ u = some ("POINT") ∨ u = some ("LINESTRING") ∨
      u = some ("POLYGON") then
    "GeoJSON.Geometry" ++ ns
  else
    "unknown" ++ ns

/-- Scalar branch of `fieldTypeToTS`: the switch result plus the JSDoc text
(`undefined` when no parts were collected). -/
def scalarFieldTS (f : FieldDefinition) : TSField :=
  { type := scalarTypeTS f
    jsdoc := if (jsdocParts f).length > 0 then some (jsJoin (" ") (jsdocParts f)) else none }

/-- `fieldTypeToTS` from generate.ts. -/
def fieldTypeToTS (f : FieldDefinition) : TSField :=
  if isRelationField f then relationTS f else scalarFieldTS f

/-- The `?` marker: `fieldDef.allowNull !== false && !fieldDef.primaryKey`. -/
def optionalMark (f : FieldDefinition) : String :=
  if fieldNullable f && !f.primaryKey then ("?") else ("")

/-- The member line `  name?: type;` emitted for one field. -/
def memberLine (name : String) (f : FieldDefinition) : String :=
  "  " ++ name ++ optionalMark f ++ ": " ++ (fieldTypeToTS f).type ++ ";"

/-- The one or two lines emitted for one field: an optional JSDoc annotation
line immediately followed by the member line. -/
def renderMember (name : String) (f : FieldDefinition) : List String :=
  (match (fieldTypeToTS f).jsdoc with
   | some j => ["  /** " ++ j ++ " */"]
   | none => []) ++ [memberLine name f]

/-- `schema.schema.name || schema.collectionName`: the display name falls back
to the collection name when empty. -/
def displayName (s : SchemaInfo) : String :=
  if s.schema.name != "" then s.schema.name else s.collectionName

/-- The fixed GeoJSON auxiliary declaration block of the preamble. -/
def geometryBlockLines : List String :=
  ["// GeoJSON types for PostGIS fields",
   "declare namespace GeoJSON \x7b",
   "  interface Point \x7b type: \x27Point\x27; coordinates: [number, number]; \x7d",
   "  interface LineString \x7b type: \x27LineString\x27; coordinates: [number, number][]; \x7d",
   "  interface Polygon \x7b type: \x27Polygon\x27; coordinates: [number, number][][]; \x7d",
   "  type Geometry = Point | LineString | Polygon;",
   "\x7d"]

/-- The initial contents of the `lines` array of `generateTypeScriptTypes`:
banner comment with the generation timestamp, then the geometry block. -/
def headerLines (ts : String) : List String :=
  ["/**",
   " * Auto-generated TypeScript types for Baasix collections",
   " * Generated at: " ++ ts,
   " * ",
   " * Do not edit this file manually. Re-run \x27baasix generate types\x27 to update.",
   " */",
   ""] ++ geometryBlockLines ++ [""]

/-- Collection of referenced system collections: every field of every schema
whose `relType` and `target` are truthy and whose target carries the
`baasix_` prefix contributes its target (the source accumulates these in a
`Set`; only membership is ever consumed). -/
def referencedSystemCollections (schemas : List SchemaInfo) : List String :=
  schemas.flatMap (fun s =>
    s.schema.fields.filterMap (fun p =>
      if truthyOpt p.2.relType && truthyOpt p.2.target &&
          strStartsWith (p.2.target.getD ("")) ("baasix_") then
        p.2.target
      else none))

/-- The schemas whose collection name is in the referenced-system set. -/
def systemSchemas (schemas : List SchemaInfo) : List SchemaInfo :=
  schemas.filter (fun s => (referencedSystemCollections schemas).contains s.collectionName)

/-- The non-system schemas: collection name lacks the `baasix_` prefix. -/
def userSchemas (schemas : List SchemaInfo) : List SchemaInfo :=
  schemas.filter (fun s => !(strStartsWith s.collectionName ("baasix_")))

/-- Member lines of a system-collection declaration: relation fields are
skipped (`if (fieldDef.relType) continue`), others render as usual. -/
def systemFieldLines (fields : List (String × FieldDefinition)) : List String :=
  fields.flatMap (fun p => if truthyOpt p.2.relType then [] else renderMember p.1 p.2)

/-- The block emitted for one referenced system collection. -/
def systemBlockLines (s : SchemaInfo) : List String :=
  ["/**",
   " * " ++ displayName s ++ " (system collection)",
   " */",
   "export interface " ++ toPascalCase s.collectionName ++ " \x7b"] ++
  systemFieldLines s.schema.fields ++
  ["\x7d", ""]

/-- The block emitted for one user (non-system) collection: every field in
declaration order, then the implicit timestamp and soft-delete members. -/
def userBlockLines (s : SchemaInfo) : List String :=
  ["/**",
   " * " ++ displayName s ++ " collection",
   " */",
   "export interface " ++ toPascalCase s.collectionName ++ " \x7b"] ++
  s.schema.fields.flatMap (fun p => renderMember p.1 p.2) ++
  (if s.schema.timestamps then ["  createdAt?: string;", "  updatedAt?: string;"] else []) ++
  (if s.schema.paranoid then ["  deletedAt?: string | null;"] else []) ++
  ["\x7d", ""]

/-- The member lines of the collection-name union, one per user schema. -/
def unionMemberLines (us : List SchemaInfo) : List String :=
  us.map (fun s => "  | \"" ++ s.collectionName ++ "\"")

/-- The collection-name union declaration block. -/
def unionLines (us : List SchemaInfo) : List String :=
  ["/**",
   " * All collection names",
   " */",
   "export type CollectionName ="] ++
  unionMemberLines us ++
  [";", ""]

/-- The name-to-type map declaration block. -/
def mapLines (us : List SchemaInfo) : List String :=
  ["/**",
   " * Map collection names to their types",
   " */",
   "export interface CollectionTypeMap \x7b"] ++
  us.map (fun s => "  " ++ s.collectionName ++ ": " ++ toPascalCase s.collectionName ++ ";") ++
  ["\x7d", ""]

/-- The full `lines` array of `generateTypeScriptTypes`, with the timestamp as
an explicit parameter. -/
def generateLines (ts : String) (schemas : List SchemaInfo) : List String :=
  headerLines ts ++
  (systemSchemas schemas).flatMap systemBlockLines ++
  (userSchemas schemas).flatMap userBlockLines ++
  unionLines (userSchemas schemas) ++
  mapLines (userSchemas schemas)

/-- `generateTypeScriptTypes` from generate.ts. -/
def generateTypeScriptTypes (ts : String) (schemas : List SchemaInfo) : String :=
  joinLines (generateLines ts schemas)

/-- The banner and import preamble of `generateSDKTypes`, with its own
timestamp parameter (the source calls `new Date()` a second time there). -/
def sdkHeaderLines (ts : String) : List String :=
  ["/**",
   " * Auto-generated typed SDK helpers for Baasix collections",
   " * Generated at: " ++ ts,
   " * ",
   " * Do not edit this file manually. Re-run \x27baasix generate sdk-types\x27 to update.",
   " */",
   "",
   "import \x7b createBaasix \x7d from \"@tspvivek/baasix-sdk\";",
   "import type \x7b QueryParams, Filter, PaginatedResponse \x7d from \"@tspvivek/baasix-sdk\";",
   ""]

/-- The typed-client accessor lines: one per user schema, keyed by the
verbatim collection name, parameterized by the PascalCase type name. -/
def sdkAccessorLines (schemas : List SchemaInfo) : List String :=
  (userSchemas schemas).map (fun s =>
    "      " ++ s.collectionName ++ ": client.items<" ++ toPascalCase s.collectionName ++
      ">(\"" ++ s.collectionName ++ "\"),")

/-- The typed-client factory block of `generateSDKTypes`. -/
def sdkFactoryLines (schemas : List SchemaInfo) : List String :=
  ["/**",
   " * Create a typed Baasix client with collection-specific methods",
   " */",
   "export function createTypedBaasix(config: Parameters<typeof createBaasix>[0]) \x7b",
   "  const client = createBaasix(config);",
   "",
   "  return \x7b",
   "    ...client,",
   "    /**",
   "     * Type-safe items access",
   "     */",
   "    collections: \x7b"] ++
  sdkAccessorLines schemas ++
  ["    \x7d,", "  \x7d;", "\x7d", ""]

/-- `generateSDKTypes` from generate.ts: the whole types-mode output is pushed
as a single element of the `lines` array between the SDK preamble and the
factory block. -/
def generateSDKTypes (ts1 ts2 : String) (schemas : List SchemaInfo) : String :=
  joinLines (sdkHeaderLines ts1 ++ [generateTypeScriptTypes ts2 schemas] ++ sdkFactoryLines schemas)

/-- Replace the timestamp line (index 2 of the `lines` array) by a fixed
placeholder, the normalization under which outputs are compared. -/
def normalizeTimestampLines (ls : List String) : List String :=
  ls.set 2 (" * Generated at: TIMESTAMP")

/-- Syntactic validity, per the TypeScript grammar, of the emitted
collection-name union declaration: a type-alias declaration
`export type CollectionName = T;` requires a nonempty type `T` between the
`=` and the `;` (a union type has at least one constituent), so the emitted
block is valid TypeScript exactly when at least one member line is present. -/
def unionDeclValidTS (us : List SchemaInfo) : Bool :=
  !(unionMemberLines us).isEmpty

/-- The scalar kinds named by the switch of `fieldTypeToTS`. -/
def knownScalarKinds : List String :=
  ["STRING", "TEXT", "UUID", "SUID", "INTEGER", "BIGINT", "FLOAT", "REAL",
   "DOUBLE", "DECIMAL", "BOOLEAN", "DATE", "DATETIME", "TIME", "JSON", "JSONB",
   "ARRAY", "ENUM", "GEOMETRY", "POINT", "LINESTRING", "POLYGON"]

/-- Input for the C1 witness: a plain nullable string field. -/
def c1ScalarInput : FieldDefinition := { type := some ("STRING") }

/-- Input for the C1 witness: a to-many relation field. -/
def c1RelInput : FieldDefinition :=
  { relType := some ("HasMany"), target := some ("orders") }

/-- The C2 counterexample input: a to-many relation targeting `line_items`
whose own nullability is explicitly disallowed. -/
def c2Field : FieldDefinition :=
  { relType := some ("HasMany"), target := some ("line_items"),
    allowNull := some false }

/-- Input for the C2 witness: the same relation with default nullability. -/
def c2FieldW : FieldDefinition :=
  { relType := some ("BelongsToMany"), target := some ("line_items") }

/-- C3 counterexample input: a lone system collection whose relation field
targets the collection itself. -/
def c3SelfSchemas : List SchemaInfo :=
  [⟨"baasix_roles",
    { fields := [("parent",
        { relType := some ("BelongsTo"), target := some ("baasix_roles") })] }⟩]

/-- Witness input for C3: a user collection referencing a system collection
that is present in the input. -/
def c3W : List SchemaInfo :=
  [⟨"orders",
    { fields := [("user",
        { relType := some ("BelongsTo"), target := some ("baasix_users") })] }⟩,
   ⟨"baasix_users",
    { fields := [("id",
        { type := some ("UUID"), primaryKey := true, allowNull := some false }),
      ("roles",
        { relType := some ("HasMany"), target := some ("baasix_roles") })] }⟩]

/-- The ordered template of all candidate annotation parts of a field, in the
emission order of the source: `@min`, `@max`, `@length`, the four `@format`
tags, `@pattern`, then `@maxLength` and `@precision` from the `values`
object.  The collected parts of any field form a sublist of this template. -/
def jsdocTemplate (f : FieldDefinition) : List String :=
  (match f.validate with
   | none => []
   | some v =>
     ["@min " ++ toString (v.min.getD 0),
      "@max " ++ toString (v.max.getD 0),
      "@length " ++ toString ((v.len.getD (0, 0)).1) ++ "-" ++ toString ((v.len.getD (0, 0)).2),
      "@format email", "@format url", "@format ip", "@format uuid",
      "@pattern " ++ (v.regex.getD (""))]) ++
  (match f.values with
   | FieldValues.obj len prec scale _ _ =>
     ["@maxLength " ++ toString (len.getD 0),
      "@precision " ++ toString (prec.getD 0) ++ "," ++ toString (scale.getD 0)]
   | _ => [])

/-- The C7 counterexample inputs: a string field with both a pattern and a
max-length constraint, and a relation field carrying a min constraint. -/
def c7Field1 : FieldDefinition :=
  { type := some ("STRING"), validate := some { regex := some ("^a") },
    values := FieldValues.obj (some 50) none none none none }

/-- Second C7 counterexample input: a relation field with a constraint. -/
def c7Field2 : FieldDefinition :=
  { relType := some ("BelongsTo"), target := some ("baasix_users"),
    validate := some { min := some 1 } }

/-- Input for the C7 witness: a string field with min and length-range
constraints. -/
def c7FieldW : FieldDefinition :=
  { type := some ("STRING"), validate := some { min := some 1, len := some (3, 50) } }

/-- Input for the C8 witness: an unrecognized scalar kind. -/
def c8FieldU : FieldDefinition := { type := some ("foobar") }

/-- Input for the C8 witness: a relation to a system collection that is
absent from the input set. -/
def c8FieldR : FieldDefinition :=
  { relType := some ("BelongsTo"), target := some ("baasix_users") }

/-- Input for the C8 witness: an input set without the `baasix_users`
descriptor and with a zero-field schema. -/
def c8Schemas : List SchemaInfo := [⟨"orders", { fields := [] }⟩]

/-- Input for the C9 witness: a relation-kind tag with no target. -/
def c9Field : FieldDefinition := { relType := some ("HasMany") }

/-! ## Helper lemmas -/

theorem str_append_assoc (a b c : String) : a ++ b ++ c = a ++ (b ++ c) := by
  cases a with
  | mk da =>
    cases b with
    | mk db =>
      cases c with
      | mk dc => exact congrArg String.mk (List.append_assoc da db dc)

theorem str_data_append (a b : String) : (a ++ b).data = a.data ++ b.data := by
  cases a with
  | mk da => cases b with
    | mk db => rfl

theorem fieldNullable_iff (f : FieldDefinition) :
    fieldNullable f = true ↔ f.allowNull ≠ some false := by
  unfold fieldNullable
  by_cases h : f.allowNull = some false <;> simp [h]

theorem optionalMark_query_iff (f : FieldDefinition) :
    optionalMark f = "?" ↔ (f.allowNull ≠ some false ∧ f.primaryKey = false) := by
  unfold optionalMark
  by_cases h1 : f.allowNull = some false <;> by_cases h2 : f.primaryKey <;>
    simp [fieldNullable, h1, h2]

/-! ## Claims -/

/-- Claim C1.  For every scalar (non-relation) field the emitted member is
marked optional exactly when nullability holds (`allowNull` not explicitly
false) and the field is not the primary key; for every relation field the
emitted type always carries the `| null` suffix; and the member line places
the optionality marker and the computed type as
`  name?: type;`. -/
theorem scalar_optional_iff_relation_always_null (name : String) (f : FieldDefinition) :
    (isRelationField f = false →
      (optionalMark f = "?" ↔ (f.allowNull ≠ some false ∧ f.primaryKey = false))) ∧
    (isRelationField f = true →
      (" | null").data <:+ ((fieldTypeToTS f).type).data) ∧
    memberLine name f =
      "  " ++ name ++ optionalMark f ++ ": " ++ (fieldTypeToTS f).type ++ ";" := by
  refine ⟨fun _ => optionalMark_query_iff f, fun h => ?_, rfl⟩
  unfold fieldTypeToTS
  rw [h]
  simp only [if_true]
  unfold relationTS
  by_cases hr : f.relType = some ("HasMany") ∨ f.relType = some ("BelongsToMany")
  · simp only [hr, if_pos]
    exact ⟨(toPascalCase (f.target.getD (""))).data ++ ("[]").data, by
      simp [str_data_append, List.append_assoc]⟩
  · simp only [hr, if_neg, if_false]
    exact ⟨(toPascalCase (f.target.getD (""))).data, by simp [str_data_append]⟩

/-- Witness for C1 at concrete inputs. -/
theorem scalar_optional_iff_relation_always_null_witness :
    (optionalMark c1ScalarInput = "?" ↔
      (c1ScalarInput.allowNull ≠ some false ∧ c1ScalarInput.primaryKey = false)) ∧
    (" | null").data <:+ ((fieldTypeToTS c1RelInput).type).data :=
  ⟨(scalar_optional_iff_relation_always_null ("t") c1ScalarInput).1 (by decide),
   (scalar_optional_iff_relation_always_null ("t") c1RelInput).2.1 (by decide)⟩

/-- Counterexample to C2 as stated: with `allowNull` explicitly false the
member is NOT rendered optional (no `?` marker), although the type is still
`LineItems[] | null`. -/
theorem c2_not_optional_counterexample :
    fieldTypeToTS c2Field = { type := "LineItems[] | null" } ∧
    renderMember ("items") c2Field = ["  items: LineItems[] | null;"] ∧
    optionalMark c2Field ≠ "?" := by
  decide

/-- Claim C2 as amended: a to-many relation targeting `line_items` always has
type `LineItems[] | null` regardless of `allowNull`, but the member is
rendered optional only when `allowNull` is not explicitly false and the field
is not the primary key. -/
theorem c2_line_items_amended (name : String) (f : FieldDefinition)
    (hrel : f.relType = some ("HasMany") ∨ f.relType = some ("BelongsToMany"))
    (htgt : f.target = some ("line_items")) :
    (fieldTypeToTS f).type = "LineItems[] | null" ∧
    (optionalMark f = "?" ↔ (f.allowNull ≠ some false ∧ f.primaryKey = false)) ∧
    memberLine name f =
      "  " ++ name ++ optionalMark f ++ ": " ++ "LineItems[] | null" ++ ";" := by
  have hrelTrue : isRelationField f = true := by
    rcases hrel with h | h <;> simp [isRelationField, truthyOpt, h, htgt]
  have htype : (fieldTypeToTS f).type = "LineItems[] | null" := by
    unfold fieldTypeToTS
    rw [hrelTrue]
    simp only [if_true]
    unfold relationTS
    rw [if_pos hrel, htgt]
    decide
  refine ⟨htype, optionalMark_query_iff f, ?_⟩
  unfold memberLine
  rw [htype]

/-- Witness for C2 (amended) at a concrete input. -/
theorem c2_line_items_amended_witness :
    (fieldTypeToTS c2FieldW).type = "LineItems[] | null" :=
  (c2_line_items_amended ("items") c2FieldW (Or.inr rfl) rfl).1

/-- Membership in the referenced-system-collection set: a target is collected
exactly when SOME field of SOME schema is a truthy relation whose truthy
target carries the `baasix_` prefix — with no exclusion of the collection
being scanned. -/
theorem mem_referencedSystemCollections (schemas : List SchemaInfo) (c : String) :
    c ∈ referencedSystemCollections schemas ↔
      ∃ s ∈ schemas, ∃ p ∈ s.schema.fields,
        truthyOpt p.2.relType = true ∧ p.2.target = some c ∧ c ≠ "" ∧
        strStartsWith c ("baasix_") = true := by
  unfold referencedSystemCollections
  simp only [List.mem_flatMap, List.mem_filterMap]
  constructor
  · rintro ⟨s, hs, p, hp, hg⟩
    refine ⟨s, hs, p, hp, ?_⟩
    by_cases hcond :
        (truthyOpt p.2.relType && truthyOpt p.2.target &&
          strStartsWith (p.2.target.getD ("")) ("baasix_")) = true
    · rw [if_pos hcond] at hg
      simp only [Bool.and_eq_true] at hcond
      obtain ⟨⟨hrel, htgt⟩, hsw⟩ := hcond
      refine ⟨hrel, hg, ?_, ?_⟩
      · cases ht : p.2.target with
        | none => rw [ht] at hg; exact absurd hg (by simp)
        | some t =>
          rw [ht] at hg
          have : t = c := Option.some.inj hg
          subst this
          rw [ht] at htgt
          simpa [truthyOpt] using htgt
      · rw [hg] at hsw
        simpa using hsw
    · rw [if_neg hcond] at hg
      exact absurd hg (by simp)
  · rintro ⟨s, hs, p, hp, hrel, htgt, hne, hsw⟩
    refine ⟨s, hs, p, hp, ?_⟩
    rw [if_pos]
    · exact htgt
    · rw [htgt]
      simp only [Bool.and_eq_true]
      refine ⟨⟨hrel, ?_⟩, ?_⟩
      · simp [truthyOpt, hne]
      · simpa using hsw

/-- Member lines of a system-collection block are exactly those of its
non-relation fields, in order. -/
theorem systemFieldLines_eq_filter (fields : List (String × FieldDefinition)) :
    systemFieldLines fields =
      (fields.filter (fun p => !(truthyOpt p.2.relType))).flatMap
        (fun p => renderMember p.1 p.2) := by
  induction fields with
  | nil => rfl
  | cons p tl ih =>
    by_cases h : truthyOpt p.2.relType <;>
      simp [systemFieldLines, List.filter_cons, h, ih] <;>
      simpa [systemFieldLines] using ih

/-- Among schemas with pairwise distinct collection names, filtering (first by
any predicate that keeps every schema named `c`, then by being named `c`)
leaves exactly one element once one exists. -/
theorem filter_name_length_one (l : List SchemaInfo) (c : String)
    (q : SchemaInfo → Bool)
    (hnd : (l.map (fun s => s.collectionName)).Nodup)
    (hex : ∃ s ∈ l, s.collectionName = c)
    (hq : ∀ s ∈ l, s.collectionName = c → q s = true) :
    ((l.filter q).filter (fun s => s.collectionName == c)).length = 1 := by
  induction l with
  | nil => simp at hex
  | cons a tl ih =>
    rw [List.map_cons, List.nodup_cons] at hnd
    obtain ⟨hnota, hnd'⟩ := hnd
    by_cases ha : a.collectionName = c
    · have hqa : q a = true := hq a (by simp) ha
      have hnotin : ∀ s ∈ tl, ¬(s.collectionName = c) := by
        intro s hsmem hc
        exact hnota (List.mem_map.mpr ⟨s, hsmem, by rw [hc, ha]⟩)
      have htl : ((tl.filter q).filter (fun s => s.collectionName == c)) = [] := by
        rw [List.filter_eq_nil_iff]
        intro s hsmem
        have hsub : s ∈ tl := (List.mem_filter.mp hsmem).1
        simp [hnotin s hsub]
      rw [List.filter_cons_of_pos hqa, List.filter_cons_of_pos (by simp [ha]), htl]
      rfl
    · have hex' : ∃ s ∈ tl, s.collectionName = c := by
        rcases hex with ⟨s, hsmem, hsc⟩
        rcases List.mem_cons.mp hsmem with rfl | hsmem'
        · exact absurd hsc ha
        · exact ⟨s, hsmem', hsc⟩
      have hrec := ih hnd' hex' (fun s hsmem hsc => hq s (List.mem_cons_of_mem a hsmem) hsc)
      by_cases hqa : q a = true
      · rw [List.filter_cons_of_pos hqa, List.filter_cons_of_neg (by simp [ha])]
        exact hrec
      · rw [List.filter_cons_of_neg hqa]
        exact hrec

/-- Counterexample to C3 as stated: the scan does NOT exclude targets equal to
the collection currently being scanned — the only `baasix_` target here is the
own name of the scanned collection, yet it is collected and its type declaration is
emitted. -/
theorem c3_self_reference_counterexample :
    referencedSystemCollections c3SelfSchemas = ["baasix_roles"] ∧
    c3SelfSchemas.map (fun s => s.collectionName) = ["baasix_roles"] ∧
    ("export interface BaasixRoles \x7b") ∈ generateLines ("T") c3SelfSchemas := by
  decide

/-- Claim C3 as amended: the referenced-system set collects every truthy
relation target with the `baasix_` prefix (including self-references);
dedup is observational (only membership is consumed); under pairwise-distinct
collection names, a collected name with a matching descriptor yields exactly
one emitted declaration, and system blocks contain only non-relation
fields. -/
theorem c3_system_collections_amended (schemas : List SchemaInfo) (c : String)
    (hnd : (schemas.map (fun s => s.collectionName)).Nodup)
    (hmem : c ∈ referencedSystemCollections schemas)
    (hdesc : ∃ s ∈ schemas, s.collectionName = c) :
    (∀ d : String, d ∈ referencedSystemCollections schemas ↔
       ∃ s ∈ schemas, ∃ p ∈ s.schema.fields,
         truthyOpt p.2.relType = true ∧ p.2.target = some d ∧ d ≠ "" ∧
         strStartsWith d ("baasix_") = true) ∧
    ((systemSchemas schemas).filter (fun s => s.collectionName == c)).length = 1 ∧
    (∀ fields : List (String × FieldDefinition),
       systemFieldLines fields =
         (fields.filter (fun p => !(truthyOpt p.2.relType))).flatMap
           (fun p => renderMember p.1 p.2)) := by
  refine ⟨fun d => mem_referencedSystemCollections schemas d, ?_, systemFieldLines_eq_filter⟩
  unfold systemSchemas
  exact filter_name_length_one schemas c _ hnd hdesc
    (fun s _ hsc => by
      show (referencedSystemCollections schemas).elem s.collectionName = true
      rw [List.elem_iff, hsc]
      exact hmem)

/-- Witness for C3 (amended) at a concrete input. -/
theorem c3_system_collections_amended_witness :
    ((systemSchemas c3W).filter (fun s => s.collectionName == "baasix_users")).length = 1 :=
  (c3_system_collections_amended c3W ("baasix_users") (by decide) (by decide)
    (by decide)).2.1

/-- Splitting a delimiter-free character list yields the single piece. -/
theorem splitDelim_no_delim (cs : List Char) (h : ∀ c ∈ cs, ¬(c = '-' ∨ c = '_')) :
    splitDelim cs = [cs] := by
  induction cs with
  | nil => rfl
  | cons c rest ih =>
    have hc : ¬(c = '-' ∨ c = '_') := h c (by simp)
    have ih' := ih (fun d hd => h d (List.mem_cons_of_mem c hd))
    simp only [splitDelim, if_neg hc, ih']

/-- Joining a one-element list of strings is the identity. -/
theorem str_join_singleton (s : String) : String.join [s] = s := by
  cases s with
  | mk d => rfl

/-- `jsCapitalize` fixes a word whose head is fixed by uppercasing and whose
remaining characters are fixed by lowercasing. -/
theorem jsCapitalize_fixed (d : List Char)
    (hfirst : d.head?.map Char.toUpper = d.head?)
    (hrest : ∀ c ∈ d.tail, Char.toLower c = c) :
    jsCapitalize d = d := by
  cases d with
  | nil => rfl
  | cons c rest =>
    have h1 : Char.toUpper c = c := by simpa using hfirst
    have h2 : rest.map Char.toLower = rest := by
      have : ∀ x ∈ rest, Char.toLower x = x := fun x hx => hrest x hx
      clear hrest hfirst h1
      induction rest with
      | nil => rfl
      | cons a tl ih =>
        simp [this a (by simp), ih (fun x hx => this x (List.mem_cons_of_mem a hx))]
    simp [jsCapitalize, h1, h2]

/-- Counterexample to C4 as stated: `OrderItems` is itself a derived
PascalCase name (from `order_items`), yet the derivation maps it to
`Orderitems`, not to itself. -/
theorem c4_pascal_counterexample :
    toPascalCase ("order_items") = "OrderItems" ∧
    toPascalCase ("OrderItems") = "Orderitems" ∧
    ("Orderitems" : String) ≠ "OrderItems" := by
  decide

/-- Claim C4 as amended: the derivation is unchanged on every delimiter-free
string whose first character is fixed by uppercasing and whose remaining
characters are fixed by lowercasing (single-capital words such as `Orders`);
on multi-capital derived names such as `OrderItems` it lowercases the later
capitals; `order_items` and `order-items` both map to `OrderItems`. -/
theorem c4_pascal_amended (w : String)
    (hdelim : ∀ c ∈ w.data, ¬(c = '-' ∨ c = '_'))
    (hfirst : w.data.head?.map Char.toUpper = w.data.head?)
    (hrest : ∀ c ∈ w.data.tail, Char.toLower c = c) :
    toPascalCase w = w ∧
    toPascalCase ("order_items") = "OrderItems" ∧
    toPascalCase ("order-items") = "OrderItems" := by
  refine ⟨?_, by decide, by decide⟩
  unfold toPascalCase
  rw [splitDelim_no_delim w.data hdelim]
  simp only [List.map]
  rw [str_join_singleton, jsCapitalize_fixed w.data hfirst hrest]

/-- Witness for C4 (amended) at concrete inputs. -/
theorem c4_pascal_amended_witness :
    toPascalCase ("Orders") = "Orders" ∧
    toPascalCase ("order_items") = "OrderItems" ∧
    toPascalCase ("order-items") = "OrderItems" :=
  c4_pascal_amended ("Orders") (by decide) (by decide) (by decide)

/-- Claim C5.  Line 2 of the generated output is the timestamp line, and for
any two timestamps the outputs agree once that line is normalized: the
timestamp is the only source of variation between runs on the same input
sequence. -/
theorem c5_determinism (schemas : List SchemaInfo) (t1 t2 : String) :
    ((generateLines t1 schemas)[2]? = some (" * Generated at: " ++ t1)) ∧
    joinLines (normalizeTimestampLines (generateLines t1 schemas)) =
      joinLines (normalizeTimestampLines (generateLines t2 schemas)) := by
  exact ⟨rfl, rfl⟩

/-- Counterexample to C6 as stated: on empty input the union declaration is
emitted with zero members, i.e. as `export type CollectionName =` immediately
followed by `;` — an empty right-hand side, which is not syntactically valid
TypeScript (the grammar requires a type between `=` and `;`). -/
theorem c6_empty_union_counterexample :
    userSchemas ([] : List SchemaInfo) = [] ∧
    unionMemberLines (userSchemas ([] : List SchemaInfo)) = [] ∧
    unionDeclValidTS (userSchemas ([] : List SchemaInfo)) = false ∧
    (["export type CollectionName =", ";"] <:+:
      generateLines ("T") ([] : List SchemaInfo)) := by
  refine ⟨rfl, rfl, rfl, ?_⟩
  exact ⟨headerLines ("T") ++ ["/**", " * All collection names", " */"],
    [""] ++ mapLines [], by decide⟩

/-- Claim C6 as amended: with zero non-system schemas the output still
contains the geometry preamble, the (empty) union-declaration block and the
(empty) map-declaration block; the empty map interface is valid TypeScript,
but the union declaration has zero members and an empty right-hand side and
is therefore not syntactically valid. -/
theorem c6_empty_input_amended (t : String) (schemas : List SchemaInfo)
    (h : userSchemas schemas = []) :
    geometryBlockLines <:+: generateLines t schemas ∧
    (["export type CollectionName =", ";"] <:+: generateLines t schemas) ∧
    (["export interface CollectionTypeMap \x7b", "\x7d"] <:+: generateLines t schemas) ∧
    unionMemberLines (userSchemas schemas) = [] ∧
    unionDeclValidTS (userSchemas schemas) = false := by
  have hpre : headerLines t <+: generateLines t schemas := by
    unfold generateLines
    simp only [List.append_assoc]
    exact List.prefix_append _ _
  refine ⟨?_, ?_, ?_, by rw [h]; rfl, by rw [h]; rfl⟩
  · exact (List.infix_append _ _ _).trans hpre.isInfix
  · have hu : unionLines (userSchemas schemas) <:+: generateLines t schemas := by
      refine ⟨headerLines t ++ (systemSchemas schemas).flatMap systemBlockLines,
        mapLines (userSchemas schemas), ?_⟩
      simp [generateLines, h, List.append_assoc]
    have hmid : ["export type CollectionName =", ";"] <:+: unionLines (userSchemas schemas) := by
      rw [h]
      exact ⟨["/**", " * All collection names", " */"], [""], by decide⟩
    exact hmid.trans hu
  · have hm : mapLines (userSchemas schemas) <:+: generateLines t schemas := by
      refine List.IsSuffix.isInfix ⟨headerLines t ++
        (systemSchemas schemas).flatMap systemBlockLines ++
        (userSchemas schemas).flatMap userBlockLines ++
        unionLines (userSchemas schemas), ?_⟩
      simp [generateLines, List.append_assoc]
    have hmid : ["export interface CollectionTypeMap \x7b", "\x7d"] <:+:
        mapLines (userSchemas schemas) := by
      rw [h]
      exact ⟨["/**", " * Map collection names to their types", " */"], [""], by decide⟩
    exact hmid.trans hm

/-- Witness for C6 (amended) at the empty input. -/
theorem c6_empty_input_amended_witness :
    geometryBlockLines <:+: generateLines ("T") ([] : List SchemaInfo) ∧
    (["export type CollectionName =", ";"] <:+:
      generateLines ("T") ([] : List SchemaInfo)) ∧
    (["export interface CollectionTypeMap \x7b", "\x7d"] <:+:
      generateLines ("T") ([] : List SchemaInfo)) ∧
    unionMemberLines (userSchemas ([] : List SchemaInfo)) = [] ∧
    unionDeclValidTS (userSchemas ([] : List SchemaInfo)) = false :=
  c6_empty_input_amended ("T") [] rfl

/-- The collected annotation parts are a sublist of the ordered template:
every present constraint appears at its fixed position in the order
min, max, length, format, pattern, maxLength, precision. -/
theorem jsdocParts_sublist_template (f : FieldDefinition) :
    List.Sublist (jsdocParts f) (jsdocTemplate f) := by
  unfold jsdocParts jsdocTemplate
  refine List.Sublist.append ?_ ?_
  · cases f.validate with
    | none => simp
    | some v =>
      have h1 : List.Sublist (match v.min with
          | some m => ["@min " ++ toString m]
          | none => []) ["@min " ++ toString (v.min.getD 0)] := by
        cases v.min <;> simp
      have h2 : List.Sublist (match v.max with
          | some m => ["@max " ++ toString m]
          | none => []) ["@max " ++ toString (v.max.getD 0)] := by
        cases v.max <;> simp
      have h3 : List.Sublist (match v.len with
          | some p => ["@length " ++ toString p.1 ++ "-" ++ toString p.2]
          | none => [])
          ["@length " ++ toString ((v.len.getD (0, 0)).1) ++ "-" ++
            toString ((v.len.getD (0, 0)).2)] := by
        cases v.len <;> simp
      have h4 : List.Sublist (if v.isEmail then [("@format email")] else []) [("@format email")] := by
        cases v.isEmail <;> simp
      have h5 : List.Sublist (if v.isUrl then [("@format url")] else []) [("@format url")] := by
        cases v.isUrl <;> simp
      have h6 : List.Sublist (if v.isIP then [("@format ip")] else []) [("@format ip")] := by
        cases v.isIP <;> simp
      have h7 : List.Sublist (if v.isUUID then [("@format uuid")] else []) [("@format uuid")] := by
        cases v.isUUID <;> simp
      have h8 : List.Sublist (match v.regex with
          | some r => if r != "" then ["@pattern " ++ r] else []
          | none => []) ["@pattern " ++ (v.regex.getD (""))] := by
        cases hr : v.regex with
        | none => simp
        | some r =>
          by_cases hne : (r != "") = true <;> simp [hne]
      show List.Sublist _ (["@min " ++ toString (v.min.getD 0)] ++
        ["@max " ++ toString (v.max.getD 0)] ++
        ["@length " ++ toString ((v.len.getD (0, 0)).1) ++ "-" ++
          toString ((v.len.getD (0, 0)).2)] ++
        [("@format email")] ++ [("@format url")] ++ [("@format ip")] ++
        [("@format uuid")] ++ ["@pattern " ++ (v.regex.getD (""))])
      exact ((((((h1.append h2).append h3).append h4).append h5).append h6).append
        h7).append h8
  · cases f.values with
    | undef => simp
    | arr vs => simp
    | obj len prec scale ty vals =>
      have h9 : List.Sublist
          (if truthyInt len then ["@maxLength " ++ toString (len.getD 0)] else [])
          ["@maxLength " ++ toString (len.getD 0)] := by
        cases truthyInt len <;> simp
      have h10 : List.Sublist
          (if truthyInt prec && truthyInt scale then
            ["@precision " ++ toString (prec.getD 0) ++ "," ++ toString (scale.getD 0)]
          else [])
          ["@precision " ++ toString (prec.getD 0) ++ "," ++ toString (scale.getD 0)] := by
        cases (truthyInt prec && truthyInt scale) <;> simp
      show List.Sublist _ (["@maxLength " ++ toString (len.getD 0)] ++
        ["@precision " ++ toString (prec.getD 0) ++ "," ++ toString (scale.getD 0)])
      exact h9.append h10

/-- Counterexample to C7 as stated: the max-length (a length constraint) is
emitted AFTER the pattern, not before as the claimed order
range → length → format → pattern → precision demands; and a relation field
with a constraint present gets no annotation line at all. -/
theorem c7_annotation_counterexample :
    (fieldTypeToTS c7Field1).jsdoc = some ("@pattern ^a @maxLength 50") ∧
    ("@pattern ^a @maxLength 50" : String) ≠ "@maxLength 50 @pattern ^a" ∧
    jsdocParts c7Field2 ≠ [] ∧
    (fieldTypeToTS c7Field2).jsdoc = none ∧
    renderMember ("u") c7Field2 = ["  u?: BaasixUsers | null;"] := by
  decide

/-- Claim C7 as amended: for every non-relation field, when at least one
constraint part is collected exactly one annotation line is emitted
immediately before the member line, joining the parts with spaces; with zero
parts no annotation line is emitted; and the parts always follow the fixed
order min, max, length-range, format, pattern, maxLength, precision. -/
theorem c7_annotation_amended (name : String) (f : FieldDefinition)
    (hscalar : isRelationField f = false) :
    (jsdocParts f ≠ [] →
      renderMember name f =
        ["  /** " ++ jsJoin (" ") (jsdocParts f) ++ " */", memberLine name f]) ∧
    (jsdocParts f = [] → renderMember name f = [memberLine name f]) ∧
    List.Sublist (jsdocParts f) (jsdocTemplate f) := by
  refine ⟨?_, ?_, jsdocParts_sublist_template f⟩
  · intro hne
    have hj : (fieldTypeToTS f).jsdoc = some (jsJoin (" ") (jsdocParts f)) := by
      simp [fieldTypeToTS, hscalar, scalarFieldTS, List.length_pos, hne]
    unfold renderMember
    rw [hj]
    rfl
  · intro heq
    have hj : (fieldTypeToTS f).jsdoc = none := by
      simp [fieldTypeToTS, hscalar, scalarFieldTS, heq]
    unfold renderMember
    rw [hj]
    rfl

/-- Witness for C7 (amended) at a concrete input. -/
theorem c7_annotation_amended_witness :
    renderMember ("title") c7FieldW =
      ["  /** " ++ jsJoin (" ") (jsdocParts c7FieldW) ++ " */",
       memberLine ("title") c7FieldW] :=
  (c7_annotation_amended ("title") c7FieldW (by decide)).1 (by decide)

/-- Claim C8.  Malformed-but-structurally-valid input degrades gracefully:
an unknown scalar kind maps to `unknown` (still with the nullability suffix);
a target absent from the input yields no system-collection declaration while
a dependent field still references the derived target type name; a schema
with zero fields still emits an (empty) interface block.  All embedded
generator functions are total, so no input in the model aborts generation. -/
theorem c8_graceful_degradation :
    (∀ f : FieldDefinition, isRelationField f = false →
      ∀ u : String, f.type.map jsToUpper = some u → u ∉ knownScalarKinds →
      (fieldTypeToTS f).type = "unknown" ++ nullSuffix f) ∧
    (∀ (schemas : List SchemaInfo) (c : String),
      (∀ s ∈ schemas, s.collectionName ≠ c) →
      c ∉ (systemSchemas schemas).map (fun s => s.collectionName)) ∧
    (∀ (f : FieldDefinition) (c : String),
      f.relType = some ("BelongsTo") → f.target = some c → c ≠ "" →
      (fieldTypeToTS f).type = toPascalCase c ++ " | null") ∧
    (∀ s : SchemaInfo, s.schema.fields = [] → s.schema.timestamps = false →
      s.schema.paranoid = false →
      userBlockLines s =
        ["/**", " * " ++ displayName s ++ " collection", " */",
         "export interface " ++ toPascalCase s.collectionName ++ " \x7b", "\x7d", ""]) := by
  refine ⟨?_, ?_, ?_, ?_⟩
  · intro f hrel u hu hmem
    have hscalar : fieldTypeToTS f = scalarFieldTS f := by
      simp [fieldTypeToTS, hrel]
    rw [hscalar]
    show scalarTypeTS f = "unknown" ++ nullSuffix f
    simp only [knownScalarKinds, List.mem_cons, List.not_mem_nil, or_false, not_or] at hmem
    obtain ⟨n1, n2, n3, n4, n5, n6, n7, n8, n9, n10, n11, n12, n13, n14, n15, n16,
      n17, n18, n19, n20, n21, n22⟩ := hmem
    simp [scalarTypeTS, hu, n1, n2, n3, n4, n5, n6, n7, n8, n9, n10, n11, n12, n13,
      n14, n15, n16, n17, n18, n19, n20, n21, n22]
  · intro schemas c h hc
    rcases List.mem_map.mp hc with ⟨s, hsmem, hname⟩
    exact h s (List.mem_filter.mp hsmem).1 hname
  · intro f c hrel htgt hcne
    have hisrel : isRelationField f = true := by
      simp [isRelationField, truthyOpt, hrel, htgt, hcne]
    unfold fieldTypeToTS
    rw [hisrel]
    simp only [if_true]
    unfold relationTS
    rw [hrel, htgt]
    rw [if_neg (by decide)]
    rfl
  · intro s h1 h2 h3
    simp [userBlockLines, h1, h2, h3]

/-- Witness for C8 at concrete inputs. -/
theorem c8_graceful_degradation_witness :
    (fieldTypeToTS c8FieldU).type = "unknown" ++ nullSuffix c8FieldU ∧
    ("baasix_users" : String) ∉ (systemSchemas c8Schemas).map (fun s => s.collectionName) ∧
    (fieldTypeToTS c8FieldR).type = toPascalCase ("baasix_users") ++ " | null" ∧
    userBlockLines ⟨"orders", { fields := [] }⟩ =
      ["/**", " * " ++ displayName ⟨"orders", { fields := [] }⟩ ++ " collection", " */",
       "export interface " ++ toPascalCase ("orders") ++ " \x7b", "\x7d", ""] :=
  ⟨c8_graceful_degradation.1 c8FieldU (by decide) ("FOOBAR") (by decide) (by decide),
   c8_graceful_degradation.2.1 c8Schemas ("baasix_users") (by decide),
   c8_graceful_degradation.2.2.1 c8FieldR ("baasix_users") rfl rfl (by decide),
   c8_graceful_degradation.2.2.2 ⟨"orders", { fields := [] }⟩ rfl rfl rfl⟩

/-- Claim C9.  A field with a truthy relation-kind tag but no truthy target
is processed through the scalar path; with no scalar kind set it falls back
to `unknown` with the nullability suffix. -/
theorem c9_reltype_without_target (f : FieldDefinition)
    (hrel : truthyOpt f.relType = true) (htgt : truthyOpt f.target = false) :
    fieldTypeToTS f = scalarFieldTS f ∧
    (f.type = none → (fieldTypeToTS f).type = "unknown" ++ nullSuffix f) := by
  have hisrel : isRelationField f = false := by
    simp [isRelationField, hrel, htgt]
  constructor
  · simp [fieldTypeToTS, hisrel]
  · intro hty
    simp [fieldTypeToTS, hisrel, scalarFieldTS, scalarTypeTS, hty]

/-- Witness for C9 at a concrete input. -/
theorem c9_reltype_without_target_witness :
    fieldTypeToTS c9Field = scalarFieldTS c9Field ∧
    (fieldTypeToTS c9Field).type = "unknown" ++ nullSuffix c9Field :=
  ⟨(c9_reltype_without_target c9Field (by decide) (by decide)).1,
   (c9_reltype_without_target c9Field (by decide) (by decide)).2 rfl⟩

/-- Joining nonempty line blocks distributes over append with a newline. -/
theorem joinLines_append (xs ys : List String) (hx : xs ≠ []) (hy : ys ≠ []) :
    joinLines (xs ++ ys) = joinLines xs ++ "\n" ++ joinLines ys := by
  induction xs with
  | nil => exact absurd rfl hx
  | cons x xs ih =>
    cases xs with
    | nil =>
      cases ys with
      | nil => exact absurd rfl hy
      | cons y ys => rfl
    | cons x2 xs2 =>
      have ih' := ih (by simp)
      show x ++ "\n" ++ joinLines ((x2 :: xs2) ++ ys) =
        (x ++ "\n" ++ joinLines (x2 :: xs2)) ++ "\n" ++ joinLines ys
      rw [ih']
      simp [str_append_assoc]

/-- Claim C10.  The sdk-types output is the SDK preamble, then the entire
types-mode output as one contiguous section, then the typed-client factory;
the factory declares one accessor per non-system collection in input order,
keyed by the verbatim collection name and parameterized by its derived
PascalCase type name. -/
theorem c10_sdk_layout (t1 t2 : String) (schemas : List SchemaInfo) :
    generateSDKTypes t1 t2 schemas =
      joinLines (sdkHeaderLines t1) ++ "\n" ++ generateTypeScriptTypes t2 schemas ++ "\n" ++
        joinLines (sdkFactoryLines schemas) ∧
    sdkAccessorLines schemas = (userSchemas schemas).map (fun s =>
      "      " ++ s.collectionName ++ ": client.items<" ++ toPascalCase s.collectionName ++
        ">(\"" ++ s.collectionName ++ "\"),") := by
  refine ⟨?_, rfl⟩
  unfold generateSDKTypes
  rw [joinLines_append (sdkHeaderLines t1 ++ [generateTypeScriptTypes t2 schemas])
        (sdkFactoryLines schemas) (by simp [sdkHeaderLines]) (by simp [sdkFactoryLines]),
      joinLines_append (sdkHeaderLines t1) [generateTypeScriptTypes t2 schemas]
        (by simp [sdkHeaderLines]) (by simp)]
  rfl

end Baasix
